import Mathlib

set_option maxRecDepth 8000
set_option maxHeartbeats 1600000

/-!
Shallow embedding of the issue-collection-and-aggregation pipeline of
src/main.py (a Jira keyword digest script).

The script queries a Jira tracker once per configured keyword, renders the
results into a single text corpus, asks an AI service for a summary and posts
the summary to a chat webhook.  External collaborators (the Jira search, the
AI model call, the webhook POST) are modelled as function parameters; the
logic of main.py itself (the keyword loop, the string rendering, the
exception-to-None collapse, the main dispatch) is transcribed faithfully.
-/

/-- The hardcoded keyword list of main.py, line 16: TARGET_KEYWORDS. -/
def TARGET_KEYWORDS : List String := ["604", "624", "704"]

/-- The fields of one retrieved Jira issue that main.py reads
(issue.key, issue.fields.summary, issue.fields.status.name,
issue.fields.assignee.displayName, issue.fields.description,
issue.fields.updated).  Optional fields are None-able in the tracker. -/
structure IssueFields where
  key : String
  summary : String
  status : String
  assignee : Option String
  description : Option String
  updated : String
deriving DecidableEq, Repr

/-- main.py line 30: the JQL query string built for one keyword. -/
def jqlQuery (keyword : String) : String :=
  "(summary ~ \"" ++ keyword ++ "\" OR text ~ \"" ++ keyword ++
    "\") AND updated >= \"-30d\" ORDER BY updated DESC"

/-- main.py line 43: assignee display name, or the fixed sentinel when the
issue has no assignee (Python: ... if issue.fields.assignee else "담당자 없음"). -/
def assigneeDisplay (i : IssueFields) : String :=
  match i.assignee with
  | some name => name
  | none => "담당자 없음"

/-- main.py line 44: the raw description, defaulting to "내용 없음" when the
description is None or empty (Python truthiness). -/
def descRaw (i : IssueFields) : String :=
  match i.description with
  | some d => if d.isEmpty then "내용 없음" else d
  | none => "내용 없음"

/-- main.py line 45: description = (desc_raw[:150] + "...").  The marker is
appended unconditionally, and this value is never used on line 48. -/
def truncatedDescription (i : IssueFields) : String :=
  (descRaw i).take 150 ++ "..."

/-- main.py line 48: the rendered line for one issue.  Note that the
truncated description is not part of the line. -/
def renderRecord (i : IssueFields) : String :=
  "- [" ++ i.key ++ "] " ++ i.summary ++ " (상태: " ++ i.status ++
    " | 담당: " ++ assigneeDisplay i ++ " | 수정일: " ++ i.updated.take 10 ++ ")\n"

/-- main.py line 34: the section emitted when a keyword has no matches. -/
def noIssuesSection (keyword : String) : String :=
  "\n=== [" ++ keyword ++ "] 관련 최근 이슈 없음 ===\n"

/-- main.py line 38: the section header emitted when a keyword has matches,
stating the match count (len(issues)). -/
def issuesHeader (keyword : String) (count : Nat) : String :=
  "\n=== [" ++ keyword ++ "] 관련 이슈 (" ++ toString count ++ "건) ===\n"

/-- The keyword loop of main.py lines 26-48, in state-passing form: the two
pieces of mutable state are combined_data and found_any_issue.  The external
search (jira.search_issues, line 31) is a parameter taking the JQL string and
the max-result bound; a raised exception is an Except.error and makes the
whole loop return none, matching the blanket except of lines 52-54. -/
def collectLoop (search : String → Nat → Except String (List IssueFields)) :
    List String → String → Bool → Option (String × Bool)
  | [], combinedData, foundAnyIssue => some (combinedData, foundAnyIssue)
  | keyword :: rest, combinedData, foundAnyIssue =>
    match search (jqlQuery keyword) 10 with
    | Except.error _ => none
    | Except.ok [] =>
        collectLoop search rest (combinedData ++ noIssuesSection keyword) foundAnyIssue
    | Except.ok (issue :: more) =>
        collectLoop search rest
          (combinedData ++ issuesHeader keyword (issue :: more).length ++
            List.foldl (fun acc i => acc ++ renderRecord i) "" (issue :: more))
          true

/-- main.py lines 18-54: get_jira_issues_by_keyword.  The connect parameter
models the JIRA(...) client construction of line 24, which may itself raise;
any exception (connect or search) falls into the except handler and
returns None, and otherwise the function returns combined_data when
found_any_issue is true and None when it is false (line 50). -/
def getJiraIssuesByKeyword (connect : Except String Unit)
    (search : String → Nat → Except String (List IssueFields))
    (keywords : List String) : Option String :=
  match connect with
  | Except.error _ => none
  | Except.ok _ =>
    match collectLoop search keywords "" false with
    | none => none
    | some (combinedData, foundAnyIssue) =>
        if foundAnyIssue then some combinedData else none

/-- The text block one keyword contributes to the corpus: the no-match
marker (line 34), or the count header followed by one rendered line per
issue (lines 38-48). -/
def keywordSection (keyword : String) : List IssueFields → String
  | [] => noIssuesSection keyword
  | issue :: more =>
      issuesHeader keyword (issue :: more).length ++
        List.foldl (fun acc i => acc ++ renderRecord i) "" (issue :: more)

/-- The section a given search assigns to a keyword (only meaningful when
the search does not raise). -/
def sectionOf (search : String → Nat → Except String (List IssueFields))
    (keyword : String) : String :=
  match search (jqlQuery keyword) 10 with
  | Except.ok issues => keywordSection keyword issues
  | Except.error _ => ""

/-- The full corpus: the in-order concatenation of one section per keyword. -/
def corpusOf (search : String → Nat → Except String (List IssueFields)) :
    List String → String
  | [] => ""
  | keyword :: rest => sectionOf search keyword ++ corpusOf search rest

/-- Whether any keyword's search returns at least one record (the final
value of the found_any_issue flag on a run with no exception). -/
def foundAnyOf (search : String → Nat → Except String (List IssueFields))
    (keywords : List String) : Bool :=
  keywords.any fun keyword =>
    match search (jqlQuery keyword) 10 with
    | Except.ok (_ :: _) => true
    | _ => false

/-- main.py lines 108-119: the instruction template wrapped around the
corpus before it is sent to the AI model. -/
def promptFor (textData : String) : String :=
  "당신은 IT 프로젝트 매니저입니다. 아래 Jira 이슈 데이터를 분석하여 주간 보고서를 작성하세요.\n" ++
    "[요청사항]\n" ++
    "1. [" ++ String.intercalate ", " TARGET_KEYWORDS ++ "] 키워드별로 섹션을 나누세요.\n" ++
    "2. 각 섹션마다 현황 요약, 주요 이슈(ID포함)를 정리하세요.\n" ++
    "3. 이슈가 없는 키워드는 특이사항 없음으로 명시하세요.\n" ++
    "4. 가독성 좋은 마크다운 형식으로 작성하세요.\n" ++
    "[데이터]\n" ++ textData

/-- main.py lines 90-126: summarize_with_gemini.  Guards: a falsy corpus
returns None (line 92); a missing model name returns None (line 100); a
raised exception in the model call returns None (lines 124-126); otherwise
the response text is returned.  The model-name lookup and the
generate_content call are external collaborators, passed as parameters. -/
def summarizeWithGemini (modelName : Option String)
    (generate : String → String → Except String String)
    (textData : String) : Option String :=
  if textData.isEmpty then none
  else
    match modelName with
    | none => none
    | some m =>
      match generate m (promptFor textData) with
      | Except.ok responseText => some responseText
      | Except.error _ => none

/-- main.py lines 128-174: send_kakaowork_alert, observed through the list
of messages actually posted to the webhook.  A falsy message is not posted
(lines 130-131); otherwise one payload carrying the message is posted. -/
def sendKakaoworkAlert (message : String) : List String :=
  if message.isEmpty then [] else [message]

/-- main.py line 191: the fixed message posted when no data was collected. -/
def noDataMessage : String := "설정된 키워드로 검색된 최근 이슈가 없습니다."

/-- The observable effects of one run of the main block: which corpus (if
any) was handed to summarize_with_gemini, and which messages were posted to
the webhook. -/
structure RunTrace where
  summarizeCalledOn : Option String
  notificationsSent : List String
deriving DecidableEq, Repr

/-- main.py lines 177-191: the main dispatch.  raw_data truthy (non-None and
non-empty) leads to summarization and, when the summary is truthy, to the
notification; otherwise the fixed no-data message is posted. -/
def mainRun (rawData : Option String) (modelName : Option String)
    (generate : String → String → Except String String) : RunTrace :=
  match rawData with
  | none =>
      { summarizeCalledOn := none, notificationsSent := sendKakaoworkAlert noDataMessage }
  | some d =>
    if d.isEmpty then
      { summarizeCalledOn := none, notificationsSent := sendKakaoworkAlert noDataMessage }
    else
      match summarizeWithGemini modelName generate d with
      | none => { summarizeCalledOn := some d, notificationsSent := [] }
      | some s =>
        if s.isEmpty then { summarizeCalledOn := some d, notificationsSent := [] }
        else { summarizeCalledOn := some d, notificationsSent := sendKakaoworkAlert s }

/-- In-order concatenation of a list of strings. -/
def joinAll : List String → String
  | [] => ""
  | s :: rest => s ++ joinAll rest

/-! ### Concrete sample data used by witnesses and counterexamples -/

/-- A sample issue whose description is far under the 150-character budget. -/
def shortBodyIssue : IssueFields :=
  { key := "PRJ-1", summary := "로그인 오류", status := "In Progress",
    assignee := some "Kim", description := some "short body",
    updated := "2024-05-02T10:00:00" }

/-- A sample issue with no assignee and no description. -/
def secondIssue : IssueFields :=
  { key := "PRJ-2", summary := "결제 실패", status := "Done",
    assignee := none, description := none,
    updated := "2024-05-01T09:30:00" }

/-- A 160-character body, over the 150-character budget. -/
def longBody : String := String.mk (List.replicate 160 'a')

/-- A sample issue whose description is over the budget. -/
def longBodyIssue : IssueFields :=
  { shortBodyIssue with key := "PRJ-3", description := some longBody }

/-- A search that finds two records for the first target keyword and none
for any other query. -/
def scenarioSearch : String → Nat → Except String (List IssueFields) := fun q _ =>
  if q = jqlQuery "604" then Except.ok [shortBodyIssue, secondIssue]
  else Except.ok []

/-- A search that succeeds with one record for the first target keyword and
raises an authentication error on any other query. -/
def failingSearch : String → Nat → Except String (List IssueFields) := fun q _ =>
  if q = jqlQuery "604" then Except.ok [shortBodyIssue]
  else Except.error "HTTP 401 Unauthorized"

/-! ### Helper lemmas -/

/-- A string of length zero is the empty string. -/
theorem strEqEmptyOfLengthZero (s : String) (h : s.length = 0) : s = "" := by
  apply String.ext
  have hd : s.data.length = 0 := h
  simpa using List.length_eq_zero.mp hd

/-- The empty string is a left identity for append. -/
theorem strEmptyAppend (s : String) : "" ++ s = s := rfl

/-- The length of a string is the length of its character list. -/
theorem strLengthData (s : String) : s.length = s.data.length := rfl

/-- Appending to a nonempty string yields a nonempty string. -/
theorem appendNeEmptyLeft (s t : String) (h : s ≠ "") : s ++ t ≠ "" := by
  intro he
  apply h
  have hlen := congrArg String.length he
  rw [String.length_append] at hlen
  exact strEqEmptyOfLengthZero s (by simpa using Nat.eq_zero_of_add_eq_zero_right hlen)

/-- The issue loop of main.py lines 40-48 renders one line per record, in
order: the foldl accumulation equals the accumulator followed by the
concatenation of the individual rendered lines. -/
theorem foldl_renderRecord (rs : List IssueFields) (acc : String) :
    List.foldl (fun a i => a ++ renderRecord i) acc rs =
      acc ++ joinAll (rs.map renderRecord) := by
  induction rs generalizing acc with
  | nil => simp [joinAll]
  | cons r rest ih => simp [joinAll, ih, String.append_assoc]

/-- The no-match section marker is never the empty string. -/
theorem noIssuesSection_ne_empty (k : String) : noIssuesSection k ≠ "" := by
  unfold noIssuesSection
  apply appendNeEmptyLeft
  apply appendNeEmptyLeft
  decide

/-- Every keyword section is a nonempty string. -/
theorem keywordSection_ne_empty (k : String) (rs : List IssueFields) :
    keywordSection k rs ≠ "" := by
  cases rs with
  | nil => exact noIssuesSection_ne_empty k
  | cons i more =>
    unfold keywordSection issuesHeader
    apply appendNeEmptyLeft
    apply appendNeEmptyLeft
    apply appendNeEmptyLeft
    apply appendNeEmptyLeft
    apply appendNeEmptyLeft
    decide

/-- On a run where no keyword's search raises, the loop accumulates exactly
one section per keyword, in list order, and the flag records whether any
keyword matched at least one record. -/
theorem collectLoop_ok (search : String → Nat → Except String (List IssueFields)) :
    ∀ (kws : List String),
      (∀ k ∈ kws, ∃ rs, search (jqlQuery k) 10 = Except.ok rs) →
      ∀ (acc : String) (found : Bool),
        collectLoop search kws acc found =
          some (acc ++ corpusOf search kws, found || foundAnyOf search kws) := by
  intro kws
  induction kws with
  | nil =>
    intro _ acc found
    simp [collectLoop, corpusOf, foundAnyOf]
  | cons k rest ih =>
    intro h acc found
    obtain ⟨rs, hk⟩ := h k (List.mem_cons_self k rest)
    have hrest : ∀ k2 ∈ rest, ∃ rs2, search (jqlQuery k2) 10 = Except.ok rs2 :=
      fun k2 hk2 => h k2 (List.mem_cons_of_mem _ hk2)
    cases rs with
    | nil =>
      simp only [collectLoop, hk]
      rw [ih hrest]
      simp [corpusOf, sectionOf, hk, keywordSection, foundAnyOf, String.append_assoc]
    | cons issue more =>
      simp only [collectLoop, hk]
      rw [ih hrest]
      simp [corpusOf, sectionOf, hk, keywordSection, foundAnyOf, String.append_assoc]

/-- If any keyword's search raises, the loop returns none regardless of the
state already accumulated. -/
theorem collectLoop_error (search : String → Nat → Except String (List IssueFields)) :
    ∀ (kws : List String),
      (∃ k ∈ kws, ∃ e, search (jqlQuery k) 10 = Except.error e) →
      ∀ (acc : String) (found : Bool),
        collectLoop search kws acc found = none := by
  intro kws
  induction kws with
  | nil => intro h; simp at h
  | cons k rest ih =>
    intro h acc found
    obtain ⟨k0, hmem, e, he⟩ := h
    rcases List.mem_cons.mp hmem with hk0 | hk0
    · subst hk0
      simp [collectLoop, he]
    · cases hsk : search (jqlQuery k) 10 with
      | error e2 => simp [collectLoop, hsk]
      | ok rs =>
        cases rs with
        | nil =>
          simp only [collectLoop, hsk]
          exact ih ⟨k0, hk0, e, he⟩ _ _
        | cons issue more =>
          simp only [collectLoop, hsk]
          exact ih ⟨k0, hk0, e, he⟩ _ _

/-- Characterization of get_jira_issues_by_keyword on a run with no
exception: it returns the full corpus when some keyword matched, and None
otherwise. -/
theorem getJiraIssues_ok (search : String → Nat → Except String (List IssueFields))
    (kws : List String)
    (h : ∀ k ∈ kws, ∃ rs, search (jqlQuery k) 10 = Except.ok rs) :
    getJiraIssuesByKeyword (Except.ok ()) search kws =
      if foundAnyOf search kws then some (corpusOf search kws) else none := by
  simp only [getJiraIssuesByKeyword, collectLoop_ok search kws h "" false]
  simp

/-- With no exception, the corpus of a nonempty keyword list is nonempty. -/
theorem corpusOf_ne_empty (search : String → Nat → Except String (List IssueFields))
    (k : String) (rest : List String)
    (h : ∃ rs, search (jqlQuery k) 10 = Except.ok rs) :
    corpusOf search (k :: rest) ≠ "" := by
  obtain ⟨rs, hk⟩ := h
  unfold corpusOf
  apply appendNeEmptyLeft
  simp only [sectionOf, hk]
  exact keywordSection_ne_empty k rs

/-- If some keyword's search returns at least one record, the found-any
flag of the run is true. -/
theorem foundAnyOf_true_of (search : String → Nat → Except String (List IssueFields))
    (kws : List String) (k : String) (hk : k ∈ kws) (issue : IssueFields)
    (more : List IssueFields)
    (h : search (jqlQuery k) 10 = Except.ok (issue :: more)) :
    foundAnyOf search kws = true := by
  unfold foundAnyOf
  rw [List.any_eq_true]
  exact ⟨k, hk, by rw [h]⟩

/-- If every keyword's search returns zero records, the found-any flag of
the run is false. -/
theorem foundAnyOf_false_of (search : String → Nat → Except String (List IssueFields))
    (kws : List String)
    (hall : ∀ k ∈ kws, search (jqlQuery k) 10 = Except.ok []) :
    foundAnyOf search kws = false := by
  unfold foundAnyOf
  rw [List.any_eq_false]
  intro k hk
  rw [hall k hk]
  simp

/-! ### Claim theorems -/

/-- Claim C1: for every non-empty keyword list, on a run where no search
raises, the aggregator returns the NoData sentinel (none) if and only if
every keyword's search returned zero records; and whenever at least one
keyword yields a record, the full corpus over all keywords is returned and
is nonempty — never a partially emitted string. -/
theorem noData_iff_all_searches_empty
    (search : String → Nat → Except String (List IssueFields))
    (kws : List String) (hne : kws ≠ [])
    (hok : ∀ k ∈ kws, ∃ rs, search (jqlQuery k) 10 = Except.ok rs) :
    (getJiraIssuesByKeyword (Except.ok ()) search kws = none ↔
      ∀ k ∈ kws, search (jqlQuery k) 10 = Except.ok []) ∧
    ((∃ k ∈ kws, ∃ issue more, search (jqlQuery k) 10 = Except.ok (issue :: more)) →
      getJiraIssuesByKeyword (Except.ok ()) search kws = some (corpusOf search kws) ∧
      corpusOf search kws ≠ "") := by
  rw [getJiraIssues_ok search kws hok]
  constructor
  · constructor
    · intro h k hk
      obtain ⟨rs, hkk⟩ := hok k hk
      cases rs with
      | nil => exact hkk
      | cons issue more =>
        rw [foundAnyOf_true_of search kws k hk issue more hkk] at h
        simp at h
    · intro hall
      rw [foundAnyOf_false_of search kws hall]
      simp
  · intro hfound
    obtain ⟨k, hk, issue, more, hkk⟩ := hfound
    rw [foundAnyOf_true_of search kws k hk issue more hkk]
    refine ⟨by simp, ?_⟩
    cases kws with
    | nil => exact absurd rfl hne
    | cons k0 rest => exact corpusOf_ne_empty search k0 rest (hok k0 (List.mem_cons_self k0 rest))

/-- Witness for C1 at a concrete input: two keywords, the first yielding
two records and the second none. -/
theorem noData_iff_all_searches_empty_witness :
    (getJiraIssuesByKeyword (Except.ok ()) scenarioSearch ["604", "624"] = none ↔
      ∀ k ∈ ["604", "624"], scenarioSearch (jqlQuery k) 10 = Except.ok []) ∧
    ((∃ k ∈ ["604", "624"], ∃ issue more,
        scenarioSearch (jqlQuery k) 10 = Except.ok (issue :: more)) →
      getJiraIssuesByKeyword (Except.ok ()) scenarioSearch ["604", "624"] =
        some (corpusOf scenarioSearch ["604", "624"]) ∧
      corpusOf scenarioSearch ["604", "624"] ≠ "") :=
  noData_iff_all_searches_empty scenarioSearch ["604", "624"] (by decide)
    (by
      intro k hk
      unfold scenarioSearch
      split
      · exact ⟨[shortBodyIssue, secondIssue], rfl⟩
      · exact ⟨[], rfl⟩)

/-- Claim C5: when at least one keyword yields a record (and no search
raises), the returned corpus is the in-order concatenation of exactly one
section per keyword; a keyword with zero matches contributes the explicit
no-results marker naming it, and a keyword with matches contributes a
section whose header names it and its match count. -/
theorem corpus_one_section_per_keyword
    (search : String → Nat → Except String (List IssueFields))
    (kws : List String)
    (hok : ∀ k ∈ kws, ∃ rs, search (jqlQuery k) 10 = Except.ok rs)
    (hfound : ∃ k ∈ kws, ∃ issue more, search (jqlQuery k) 10 = Except.ok (issue :: more)) :
    getJiraIssuesByKeyword (Except.ok ()) search kws = some (corpusOf search kws) ∧
    (∀ k ∈ kws,
      (search (jqlQuery k) 10 = Except.ok [] →
        sectionOf search k = "\n=== [" ++ k ++ "] 관련 최근 이슈 없음 ===\n") ∧
      (∀ issues, search (jqlQuery k) 10 = Except.ok issues → issues ≠ [] →
        ∃ body, sectionOf search k =
          "\n=== [" ++ k ++ "] 관련 이슈 (" ++ toString issues.length ++ "건) ===\n" ++ body)) := by
  constructor
  · obtain ⟨k, hk, issue, more, hkk⟩ := hfound
    rw [getJiraIssues_ok search kws hok, foundAnyOf_true_of search kws k hk issue more hkk]
    simp
  · intro k hk
    constructor
    · intro h
      simp [sectionOf, h, keywordSection, noIssuesSection]
    · intro issues h hne2
      cases issues with
      | nil => exact absurd rfl hne2
      | cons issue more =>
        refine ⟨List.foldl (fun acc i => acc ++ renderRecord i) "" (issue :: more), ?_⟩
        simp [sectionOf, h, keywordSection, issuesHeader]

/-- Witness for C5 at a concrete input: three keywords, the first yielding
two records, the others none. -/
theorem corpus_one_section_per_keyword_witness :
    getJiraIssuesByKeyword (Except.ok ()) scenarioSearch ["604", "624", "704"] =
      some (corpusOf scenarioSearch ["604", "624", "704"]) ∧
    (∀ k ∈ ["604", "624", "704"],
      (scenarioSearch (jqlQuery k) 10 = Except.ok [] →
        sectionOf scenarioSearch k = "\n=== [" ++ k ++ "] 관련 최근 이슈 없음 ===\n") ∧
      (∀ issues, scenarioSearch (jqlQuery k) 10 = Except.ok issues → issues ≠ [] →
        ∃ body, sectionOf scenarioSearch k =
          "\n=== [" ++ k ++ "] 관련 이슈 (" ++ toString issues.length ++ "건) ===\n" ++ body)) :=
  corpus_one_section_per_keyword scenarioSearch ["604", "624", "704"]
    (by
      intro k hk
      unfold scenarioSearch
      split
      · exact ⟨[shortBodyIssue, secondIssue], rfl⟩
      · exact ⟨[], rfl⟩)
    ⟨"604", by decide, shortBodyIssue, [secondIssue], by rw [scenarioSearch]; simp⟩

/-- Claim C6: for every nonempty keyword section, the record count stated
in the section header equals the number of per-record lines rendered under
it: the section is the header stating the length of the list of rendered
lines, followed by exactly those lines in order. -/
theorem header_count_eq_rendered_lines (k : String) (rs : List IssueFields) (h : rs ≠ []) :
    keywordSection k rs =
      issuesHeader k (rs.map renderRecord).length ++ joinAll (rs.map renderRecord) := by
  cases rs with
  | nil => exact absurd rfl h
  | cons issue more =>
    simp only [keywordSection, foldl_renderRecord, List.length_map, strEmptyAppend]

/-- Witness for C6 at a concrete two-record section. -/
theorem header_count_eq_rendered_lines_witness :
    keywordSection "604" [shortBodyIssue, secondIssue] =
      issuesHeader "604" ([shortBodyIssue, secondIssue].map renderRecord).length ++
        joinAll ([shortBodyIssue, secondIssue].map renderRecord) :=
  header_count_eq_rendered_lines "604" [shortBodyIssue, secondIssue] (by decide)

/-- Claim C7: if any keyword's search raises, get_jira_issues_by_keyword
returns none — the partial per-keyword sections already accumulated are
discarded and no corpus string is ever returned, even when earlier
keywords succeeded. -/
theorem partial_results_discarded (connect : Except String Unit)
    (search : String → Nat → Except String (List IssueFields)) (kws : List String)
    (herr : ∃ k ∈ kws, ∃ e, search (jqlQuery k) 10 = Except.error e) :
    getJiraIssuesByKeyword connect search kws = none := by
  cases connect with
  | error e => rfl
  | ok u => simp only [getJiraIssuesByKeyword, collectLoop_error search kws herr]

/-- Witness for C7 at a concrete input: the first keyword succeeds with a
record, the second raises; the result is still none. -/
theorem partial_results_discarded_witness :
    getJiraIssuesByKeyword (Except.ok ()) failingSearch ["604", "624"] = none :=
  partial_results_discarded (Except.ok ()) failingSearch ["604", "624"]
    ⟨"624", by decide, "HTTP 401 Unauthorized", by rw [failingSearch]; simp; decide⟩

/-- Claim C8: a record with no assignee renders the fixed sentinel in the
assignee position of its line, and the sentinel is not the empty string. -/
theorem missing_assignee_sentinel (i : IssueFields) (h : i.assignee = none) :
    assigneeDisplay i = "담당자 없음" ∧
    ("담당자 없음" : String) ≠ "" ∧
    renderRecord i =
      "- [" ++ i.key ++ "] " ++ i.summary ++ " (상태: " ++ i.status ++
        " | 담당: " ++ "담당자 없음" ++ " | 수정일: " ++ i.updated.take 10 ++ ")\n" := by
  have h1 : assigneeDisplay i = "담당자 없음" := by simp [assigneeDisplay, h]
  exact ⟨h1, by decide, by rw [renderRecord, h1]⟩

/-- Witness for C8 at a concrete unassigned issue. -/
theorem missing_assignee_sentinel_witness :
    assigneeDisplay secondIssue = "담당자 없음" ∧
    ("담당자 없음" : String) ≠ "" ∧
    renderRecord secondIssue =
      "- [" ++ secondIssue.key ++ "] " ++ secondIssue.summary ++ " (상태: " ++
        secondIssue.status ++ " | 담당: " ++ "담당자 없음" ++ " | 수정일: " ++
        secondIssue.updated.take 10 ++ ")\n" :=
  missing_assignee_sentinel secondIssue rfl

/-- Claim C9: when the corpus is truthy but summarize_with_gemini yields no
report (the None sentinel, covering AI failure and missing model), the main
block posts nothing to the chat webhook; the run is a total function, so it
terminates without raising. -/
theorem summarization_failure_skips_notification (d : String) (modelName : Option String)
    (generate : String → String → Except String String)
    (hd : d.isEmpty = false)
    (hfail : summarizeWithGemini modelName generate d = none) :
    (mainRun (some d) modelName generate).notificationsSent = [] ∧
    (mainRun (some d) modelName generate).summarizeCalledOn = some d := by
  simp [mainRun, hd, hfail]

/-- Witness for C9 at a concrete input: a nonempty corpus and an AI step
with no usable model. -/
theorem summarization_failure_skips_notification_witness :
    (mainRun (some "data") none (fun _ _ => Except.error "quota")).notificationsSent = [] ∧
    (mainRun (some "data") none (fun _ _ => Except.error "quota")).summarizeCalledOn =
      some "data" :=
  summarization_failure_skips_notification "data" none (fun _ _ => Except.error "quota")
    rfl rfl

/-- Claim C10: on the empty keyword list the aggregator issues no search at
all — its result does not depend on the search collaborator — and it
returns the NoData sentinel none, the same outcome as when every keyword
matched nothing. -/
theorem empty_keyword_list_noData (connect : Except String Unit)
    (s1 s2 : String → Nat → Except String (List IssueFields)) :
    getJiraIssuesByKeyword connect s1 [] = none ∧
    getJiraIssuesByKeyword connect s1 [] = getJiraIssuesByKeyword connect s2 [] := by
  cases connect <;> simp [getJiraIssuesByKeyword, collectLoop]

/-- Counterexample to claim C2 as stated: with one keyword and a search
that raises an authentication error, get_jira_issues_by_keyword returns
exactly the same None sentinel as a run in which the keyword matched
nothing (the CollectionFailed outcome is not distinct from NoData), and
the main block then posts the fixed no-data message to the chat webhook,
so a notification is sent. -/
theorem collection_failure_cex :
    getJiraIssuesByKeyword (Except.ok ())
        (fun _ _ => Except.error "HTTP 401 Unauthorized") ["604"] =
      getJiraIssuesByKeyword (Except.ok ())
        (fun _ _ => Except.ok []) ["604"] ∧
    (mainRun
        (getJiraIssuesByKeyword (Except.ok ())
          (fun _ _ => Except.error "HTTP 401 Unauthorized") ["604"])
        (some "models/gemini-pro") (fun _ _ => Except.ok "report")).notificationsSent =
      [noDataMessage] ∧
    noDataMessage ≠ "" := by
  refine ⟨rfl, rfl, by decide⟩

/-- Claim C2 (amended): when the tracker connect or any keyword's search
raises, get_jira_issues_by_keyword returns the None sentinel — the same
value as the NoData outcome, not a distinct one; summarization is not
attempted on any corpus, but the main block does post the fixed no-data
notification to the chat webhook. -/
theorem collection_failure_behavior (connect : Except String Unit)
    (search : String → Nat → Except String (List IssueFields)) (kws : List String)
    (modelName : Option String) (generate : String → String → Except String String)
    (herr : ∃ k ∈ kws, ∃ e, search (jqlQuery k) 10 = Except.error e) :
    getJiraIssuesByKeyword connect search kws = none ∧
    (mainRun (getJiraIssuesByKeyword connect search kws) modelName
        generate).summarizeCalledOn = none ∧
    (mainRun (getJiraIssuesByKeyword connect search kws) modelName
        generate).notificationsSent = [noDataMessage] := by
  have h0 : getJiraIssuesByKeyword connect search kws = none := by
    cases connect with
    | error e => rfl
    | ok u => simp only [getJiraIssuesByKeyword, collectLoop_error search kws herr]
  rw [h0]
  have hmsg : noDataMessage.isEmpty = false := by decide
  simp [mainRun, sendKakaoworkAlert, hmsg]

/-- Witness for the amended C2 at a concrete failing search. -/
theorem collection_failure_behavior_witness :
    getJiraIssuesByKeyword (Except.ok ()) failingSearch ["604", "624"] = none ∧
    (mainRun (getJiraIssuesByKeyword (Except.ok ()) failingSearch ["604", "624"])
        none (fun _ _ => Except.error "unused")).summarizeCalledOn = none ∧
    (mainRun (getJiraIssuesByKeyword (Except.ok ()) failingSearch ["604", "624"])
        none (fun _ _ => Except.error "unused")).notificationsSent = [noDataMessage] :=
  collection_failure_behavior (Except.ok ()) failingSearch ["604", "624"]
    none (fun _ _ => Except.error "unused")
    ⟨"624", by decide, "HTTP 401 Unauthorized", by rw [failingSearch]; simp; decide⟩

/-- Counterexample to claim C3 as stated: with one keyword matching
nothing, collect returns the NoData sentinel, and the main block then
invokes the webhook notification with the fixed no-data message — the
notification call is not skipped. -/
theorem noData_notification_cex :
    getJiraIssuesByKeyword (Except.ok ()) (fun _ _ => Except.ok []) ["604"] = none ∧
    (mainRun (getJiraIssuesByKeyword (Except.ok ()) (fun _ _ => Except.ok []) ["604"])
        (some "models/gemini-pro") (fun _ _ => Except.ok "report")).notificationsSent ≠
      [] := by
  refine ⟨rfl, by decide⟩

/-- Claim C3 (amended): on every run where every keyword's search returns
zero records, collect returns the NoData sentinel and summarization is
never invoked — the corpus is never passed downstream — but the main block
does post the fixed no-data message to the chat webhook. -/
theorem noData_skips_summarization_but_notifies (connect : Except String Unit)
    (search : String → Nat → Except String (List IssueFields)) (kws : List String)
    (modelName : Option String) (generate : String → String → Except String String)
    (hall : ∀ k ∈ kws, search (jqlQuery k) 10 = Except.ok []) :
    getJiraIssuesByKeyword connect search kws = none ∧
    (mainRun (getJiraIssuesByKeyword connect search kws) modelName
        generate).summarizeCalledOn = none ∧
    (mainRun (getJiraIssuesByKeyword connect search kws) modelName
        generate).notificationsSent = [noDataMessage] := by
  have h0 : getJiraIssuesByKeyword connect search kws = none := by
    cases connect with
    | error e => rfl
    | ok u =>
      rw [getJiraIssues_ok search kws (fun k hk => ⟨[], hall k hk⟩),
        foundAnyOf_false_of search kws hall]
      simp
  rw [h0]
  have hmsg : noDataMessage.isEmpty = false := by decide
  simp [mainRun, sendKakaoworkAlert, hmsg]

/-- Witness for the amended C3 at a concrete input: one keyword, zero
records. -/
theorem noData_skips_summarization_but_notifies_witness :
    getJiraIssuesByKeyword (Except.ok ()) (fun _ _ => Except.ok []) ["604"] = none ∧
    (mainRun (getJiraIssuesByKeyword (Except.ok ()) (fun _ _ => Except.ok []) ["604"])
        none (fun _ _ => Except.error "unused")).summarizeCalledOn = none ∧
    (mainRun (getJiraIssuesByKeyword (Except.ok ()) (fun _ _ => Except.ok []) ["604"])
        none (fun _ _ => Except.error "unused")).notificationsSent = [noDataMessage] :=
  noData_skips_summarization_but_notifies (Except.ok ())
    (fun _ _ => Except.ok []) ["604"] none (fun _ _ => Except.error "unused")
    (fun _ _ => rfl)

/-- Counterexample to claim C4 as stated: for a concrete record whose body
("short body", 10 characters) is well under the 150-character budget, the
computed description is the body with the truncation marker appended — not
the body unmodified — and the rendered record line does not contain the
body in any form, truncated or not (its exact value is shown). -/
theorem truncation_cex :
    (descRaw shortBodyIssue).length ≤ 150 ∧
    truncatedDescription shortBodyIssue = "short body..." ∧
    truncatedDescription shortBodyIssue ≠ descRaw shortBodyIssue ∧
    renderRecord shortBodyIssue =
      "- [PRJ-1] 로그인 오류 (상태: In Progress | 담당: Kim | 수정일: 2024-05-02)\n" := by
  refine ⟨by decide, by decide, by decide, by decide⟩

/-- Claim C4 (amended): for every retrieved record the code computes a
description equal to the first 150 characters of the body with the
truncation marker appended unconditionally — a body over the budget is cut
to exactly 150 characters (computed length 153 including the marker), and
a body at or under the budget also receives the marker instead of being
left unmodified — and this computed description never reaches the rendered
record line, which is independent of the body. -/
theorem truncation_behavior (i : IssueFields) :
    ((descRaw i).length ≤ 150 → truncatedDescription i = descRaw i ++ "...") ∧
    (150 < (descRaw i).length →
      (truncatedDescription i).length = 153 ∧
      (truncatedDescription i).data = (descRaw i).data.take 150 ++ "...".data) ∧
    (∀ d, renderRecord { i with description := d } = renderRecord i) := by
  refine ⟨?_, ?_, ?_⟩
  · intro h
    unfold truncatedDescription
    apply String.ext
    rw [String.data_append, String.data_append, String.data_take]
    have h2 : (descRaw i).data.length ≤ 150 := h
    rw [List.take_of_length_le h2]
  · intro h
    have hdata : (truncatedDescription i).data = (descRaw i).data.take 150 ++ "...".data := by
      unfold truncatedDescription
      rw [String.data_append, String.data_take]
    refine ⟨?_, hdata⟩
    rw [strLengthData, hdata, List.length_append, List.length_take]
    have hmin : min 150 (descRaw i).data.length = 150 :=
      Nat.min_eq_left (Nat.le_of_lt h)
    rw [hmin]
    decide
  · intro d
    cases i
    rfl

/-- Witness for the amended C4: the under-budget body receives the marker,
the over-budget body is cut to computed length 153, and swapping the body
leaves the rendered line unchanged. -/
theorem truncation_behavior_witness :
    truncatedDescription shortBodyIssue = descRaw shortBodyIssue ++ "..." ∧
    (truncatedDescription longBodyIssue).length = 153 ∧
    renderRecord { shortBodyIssue with description := some "different body" } =
      renderRecord shortBodyIssue :=
  ⟨(truncation_behavior shortBodyIssue).1 (by decide),
   ((truncation_behavior longBodyIssue).2.1 (by decide)).1,
   (truncation_behavior shortBodyIssue).2.2 (some "different body")⟩
